import Mathlib

/-!
Shallow embedding of sysfs/gpio.py (Linux SysFS GPIO pin control).

The embedding models the per-line sysfs attribute files as registers
(`LineState`), the runtime state of a `Pin` object (`PinState`), and each
operation of the source as a function that returns the new states together
with the list of externally visible actions it performed (`Action`) and an
optional raised error (`PyError`).  Python exceptions are modelled by the
`res` field of `MRes`: the actions performed before the raise are kept,
mirroring the fact that side effects done before an exception persist.
-/

namespace SysfsGpio

/-- Errors raised by the embedded code, one constructor per distinct raise
site or exception class of the source. -/
inductive PyError
  | typeError
  | notExported
  | unsupportedEdge
  | fixedDirection
  | noEventLoop
  | fileNotFound
  | nameError
  | invalidPinNumber
  | pinAlreadyAllocated
  | pinNotAllocated
  deriving DecidableEq, Repr

/-- A Python argument that may be a callback: absent (None), a callable, or
a present but non-callable object (what `callable(x)` rejects). -/
inductive CbArg
  | none
  | callable
  | nonCallable
  deriving DecidableEq, Repr

/-- The Python values the configuration setters inspect: None, a bool, an
int, or anything else.  `pyint` is kept separate because Python equality
has `1 == True` and `0 == False`, which the source relies on via `==`
comparisons with True and False. -/
inductive PyVal
  | none
  | pybool (b : Bool)
  | pyint (n : Int)
  | other
  deriving DecidableEq, Repr

/-- Python `v == True` for the modelled values: true for the bool True and
for numbers equal to 1. -/
def PyVal.eqTrue : PyVal → Bool
  | PyVal.pybool b => b
  | PyVal.pyint n => decide (n = 1)
  | PyVal.none => false
  | PyVal.other => false

/-- Python `v == False` for the modelled values: true for the bool False
and for numbers equal to 0. -/
def PyVal.eqFalse : PyVal → Bool
  | PyVal.pybool b => !b
  | PyVal.pyint n => decide (n = 0)
  | PyVal.none => false
  | PyVal.other => false

/-- Python `isinstance(v, bool)` for the modelled values. -/
def PyVal.isBool : PyVal → Bool
  | PyVal.pybool _ => true
  | _ => false

/-- Python `b == v` where `b` is a Python bool and `v` a modelled value. -/
def pyEqBool (b : Bool) : PyVal → Bool
  | PyVal.pybool c => b = c
  | PyVal.pyint n => (b && n = 1) || (!b && n = 0)
  | _ => false

/-- Externally visible steps an operation performs, in order: writes to the
sysfs control and attribute files, value file handle management, event
loop (monitor) registration changes, callback invocations, logging, and
the cross-thread hand offs of the wait loop. -/
inductive Action
  | writeExportFile (n : Nat)
  | writeUnexportFile (n : Nat)
  | writeEdgeFile (s : String)
  | writeDirectionFile (s : String)
  | writeActiveLowFile (s : String)
  | writeValueFile (s : String)
  | readValueFile
  | openValueFile
  | closeValueFile
  | monitorAdd (token : Nat)
  | monitorRemove (token : Nat)
  | cbRising (b : Bool)
  | cbFalling (b : Bool)
  | logError
  | reactorStop
  | dispatchBatch (evs : List Nat)
  deriving DecidableEq, Repr

/-- The kernel-side state of one GPIO line, as visible through its sysfs
files.  A file of the line exists only while the line is exported; the
`hasEdgeFile` and `hasDirectionFile` flags say whether the line supports
edge configuration and direction changes at all.  `valueLevel` is the
logical level the value attribute exposes: reads return it followed by a
newline, writes replace it.  The active_low attribute is a separate
register; the kernel applies it symmetrically to reads and writes of the
value attribute, so the level read back always equals the level last
written, whatever active_low holds. -/
structure LineState where
  exported : Bool
  hasEdgeFile : Bool
  hasDirectionFile : Bool
  directionContents : String
  edgeContents : String
  valueLevel : String
  activeLow : String
  deriving DecidableEq, Repr

/-- The dictionary `Pin.__monitoring` stores: the token returned by
`eventLoop.add` and the two callback arguments as given. -/
structure Monitoring where
  token : Nat
  cbRising : CbArg
  cbFalling : CbArg
  deriving DecidableEq, Repr

/-- The runtime state of a `Pin` object: its number, whether an event loop
was supplied, whether `__valueFile` is open, and `__monitoring`. -/
structure PinState where
  nr : Nat
  hasEventLoop : Bool
  valueFileOpen : Bool
  monitoring : Option Monitoring
  deriving DecidableEq, Repr

/-- Result of one embedded operation: the new line and pin states, the
actions performed (also those before a raise), and the returned value or
the raised error. -/
structure MRes (α : Type) where
  fs : LineState
  p : PinState
  tr : List Action
  res : Except PyError α

/-- Embeds `Pin.__assureValueFile` (gpio.py lines 209-211): opens the value
attribute lazily; `open` raises FileNotFoundError when the line is not
exported (the file does not exist then). -/
def assureValueFile (fs : LineState) (p : PinState) : MRes Unit :=
  if p.valueFileOpen then ⟨fs, p, [], Except.ok ()⟩
  else if fs.exported then
    ⟨fs, { p with valueFileOpen := true }, [Action.openValueFile], Except.ok ()⟩
  else ⟨fs, p, [], Except.error PyError.fileNotFound⟩

/-- Embeds `Pin.exportedOrFail` (lines 102-104): `some` error when the line
is not exported. -/
def exportedOrFail (fs : LineState) : Option PyError :=
  if fs.exported then Option.none else Option.some PyError.notExported

/-- Embeds `Pin.export` (lines 90-92): unconditionally writes the pin
number to the export control file.  The kernel-side effect is that the
line is exported afterwards; no already-exported check and no logging
happens in the source. -/
def exportLine (fs : LineState) (p : PinState) : MRes Unit :=
  ⟨{ fs with exported := true }, p, [Action.writeExportFile p.nr], Except.ok ()⟩

/-- Embeds `Pin.__reconfigureMonitoring` (lines 273-292): always tears down
an existing registration first; with both callbacks None it stops there;
otherwise it needs an event loop, makes sure the value file is open, adds
it to the event loop and records the registration.  The token returned by
`eventLoop.add` is abstracted as 0. -/
def reconfigureMonitoring (fs : LineState) (p : PinState) (cbR cbF : CbArg) : MRes Unit :=
  let td : PinState × List Action :=
    match p.monitoring with
    | Option.some m => ({ p with monitoring := Option.none }, [Action.monitorRemove m.token])
    | Option.none => (p, [])
  if cbR = CbArg.none ∧ cbF = CbArg.none then
    ⟨fs, td.1, td.2, Except.ok ()⟩
  else if td.1.hasEventLoop = false then
    ⟨fs, td.1, td.2, Except.error PyError.noEventLoop⟩
  else
    let av := assureValueFile fs td.1
    match av.res with
    | Except.error e => ⟨av.fs, av.p, td.2 ++ av.tr, Except.error e⟩
    | Except.ok _ =>
      ⟨av.fs, { av.p with monitoring := Option.some ⟨0, cbR, cbF⟩ },
        td.2 ++ av.tr ++ [Action.monitorAdd 0], Except.ok ()⟩

/-- Embeds `Pin.__closeValueFile` (lines 214-219): when the value file is
open, first drop any monitoring registration, then close the file. -/
def closeValueFile (fs : LineState) (p : PinState) : MRes Unit :=
  if p.valueFileOpen then
    let rm := reconfigureMonitoring fs p CbArg.none CbArg.none
    match rm.res with
    | Except.error e => ⟨rm.fs, rm.p, rm.tr, Except.error e⟩
    | Except.ok _ =>
      ⟨rm.fs, { rm.p with valueFileOpen := false }, rm.tr ++ [Action.closeValueFile], Except.ok ()⟩
  else ⟨fs, p, [], Except.ok ()⟩

/-- Embeds `Pin.unexport` (lines 95-99): close the value file (which also
unregisters from monitoring), then write the unexport control file. -/
def unexport (fs : LineState) (p : PinState) : MRes Unit :=
  let cv := closeValueFile fs p
  match cv.res with
  | Except.error e => ⟨cv.fs, cv.p, cv.tr, Except.error e⟩
  | Except.ok _ =>
    ⟨{ cv.fs with exported := false }, cv.p,
      cv.tr ++ [Action.writeUnexportFile p.nr], Except.ok ()⟩

/-- Embeds the `exported` property setter (lines 112-122): return early
when the line is already in the requested state, otherwise export or
unexport, or raise TypeError for a non-boolean argument.  The comparisons
use Python `==` as the source does. -/
def exportedSet (fs : LineState) (p : PinState) (v : PyVal) : MRes Unit :=
  if pyEqBool fs.exported v then ⟨fs, p, [], Except.ok ()⟩
  else if v.eqTrue then exportLine fs p
  else if v.eqFalse then unexport fs p
  else ⟨fs, p, [], Except.error PyError.typeError⟩

/-- Embeds the `_direction` setter (lines 185-193): write the direction
attribute; on FileNotFoundError report not-exported or fixed-direction.
Writing high or low also establishes the initial level, and the kernel
normalises the stored direction to in or out. -/
def directionSet (fs : LineState) (p : PinState) (d : String) : MRes Unit :=
  if fs.exported ∧ fs.hasDirectionFile then
    ⟨{ fs with
        directionContents := if d = "in" then "in" else "out",
        valueLevel := if d = "high" then "1" else if d = "low" then "0" else fs.valueLevel },
      p, [Action.writeDirectionFile d], Except.ok ()⟩
  else if fs.exported then ⟨fs, p, [], Except.error PyError.fixedDirection⟩
  else ⟨fs, p, [], Except.error PyError.notExported⟩

/-- Embeds the `inverted` setter (lines 251-259): open the active_low
attribute for writing (FileNotFoundError when the line is not exported),
then write 1 for a value equal to True, 0 for one equal to False, and
raise TypeError otherwise. -/
def invertedSet (fs : LineState) (p : PinState) (v : PyVal) : MRes Unit :=
  if fs.exported = false then ⟨fs, p, [], Except.error PyError.fileNotFound⟩
  else if v.eqTrue then
    ⟨{ fs with activeLow := "1" }, p, [Action.writeActiveLowFile "1"], Except.ok ()⟩
  else if v.eqFalse then
    ⟨{ fs with activeLow := "0" }, p, [Action.writeActiveLowFile "0"], Except.ok ()⟩
  else ⟨fs, p, [], Except.error PyError.typeError⟩

/-- Embeds the `value` getter (lines 222-226): make sure the value file is
open, seek to 0, read, strip the trailing newline and compare with the
string 0. -/
def valueGet (fs : LineState) (p : PinState) : MRes Bool :=
  let av := assureValueFile fs p
  match av.res with
  | Except.error e => ⟨av.fs, av.p, av.tr, Except.error e⟩
  | Except.ok _ =>
    ⟨av.fs, av.p, av.tr ++ [Action.readValueFile],
      Except.ok (decide (av.fs.valueLevel ≠ "0"))⟩

/-- Embeds the `value` setter (lines 229-239): make sure the value file is
open, then write 1 for a value equal to True, 0 for one equal to False,
and raise TypeError otherwise. -/
def valueSet (fs : LineState) (p : PinState) (v : PyVal) : MRes Unit :=
  let av := assureValueFile fs p
  match av.res with
  | Except.error e => ⟨av.fs, av.p, av.tr, Except.error e⟩
  | Except.ok _ =>
    if v.eqTrue then
      ⟨{ av.fs with valueLevel := "1" }, av.p,
        av.tr ++ [Action.writeValueFile "1"], Except.ok ()⟩
    else if v.eqFalse then
      ⟨{ av.fs with valueLevel := "0" }, av.p,
        av.tr ++ [Action.writeValueFile "0"], Except.ok ()⟩
    else ⟨av.fs, av.p, av.tr, Except.error PyError.typeError⟩

/-- Writing the value and then reading it back, the composite the spec
states its round-trip property about. -/
def writeThenRead (fs : LineState) (p : PinState) (b : Bool) : MRes Bool :=
  let ws := valueSet fs p (PyVal.pybool b)
  match ws.res with
  | Except.error e => ⟨ws.fs, ws.p, ws.tr, Except.error e⟩
  | Except.ok _ =>
    let rd := valueGet ws.fs ws.p
    ⟨rd.fs, rd.p, ws.tr ++ rd.tr, rd.res⟩

/-- Embeds the edge computation of `Pin.configureAsInput` (lines 147-156):
the if chain over `is None` and `callable` tests. -/
def edgeOf (cbR cbF : CbArg) : Except PyError String :=
  if cbR = CbArg.none ∧ cbF = CbArg.none then Except.ok "none"
  else if cbR = CbArg.callable ∧ cbF = CbArg.none then Except.ok "rising"
  else if cbR = CbArg.none ∧ cbF = CbArg.callable then Except.ok "falling"
  else if cbR = CbArg.callable ∧ cbF = CbArg.callable then Except.ok "both"
  else Except.error PyError.typeError

/-- Embeds `Pin.configureAsInput` (lines 146-171): compute the edge string,
tear down any monitoring, then try to write the edge attribute.  The write
statement is `return f.write(edge)`, so a successful write RETURNS from
the function; only when the edge file is missing (FileNotFoundError) and
the computed edge is none does control fall through to the direction
write and the monitoring reconfiguration. -/
def configureAsInput (fs : LineState) (p : PinState) (cbR cbF : CbArg) : MRes Unit :=
  match edgeOf cbR cbF with
  | Except.error e => ⟨fs, p, [], Except.error e⟩
  | Except.ok edge =>
    let rm := reconfigureMonitoring fs p CbArg.none CbArg.none
    match rm.res with
    | Except.error e => ⟨rm.fs, rm.p, rm.tr, Except.error e⟩
    | Except.ok _ =>
      if rm.fs.exported ∧ rm.fs.hasEdgeFile then
        ⟨{ rm.fs with edgeContents := edge }, rm.p,
          rm.tr ++ [Action.writeEdgeFile edge], Except.ok ()⟩
      else if edge ≠ "none" then
        match exportedOrFail rm.fs with
        | Option.some e => ⟨rm.fs, rm.p, rm.tr, Except.error e⟩
        | Option.none => ⟨rm.fs, rm.p, rm.tr, Except.error PyError.unsupportedEdge⟩
      else
        let ds := directionSet rm.fs rm.p "in"
        match ds.res with
        | Except.error e => ⟨ds.fs, ds.p, rm.tr ++ ds.tr, Except.error e⟩
        | Except.ok _ =>
          let rg := reconfigureMonitoring ds.fs ds.p cbR cbF
          ⟨rg.fs, rg.p, rm.tr ++ ds.tr ++ rg.tr, rg.res⟩

/-- Embeds `Pin.configureAsOutput` (lines 128-143): tear down monitoring,
write the inversion when a bool was supplied (TypeError for a non-None
non-bool), then write the direction as out, high or low according to
`initValue`, or raise TypeError.  The `initValue` comparisons use Python
`==` against True and False, the `inverted` test uses `isinstance`. -/
def configureAsOutput (fs : LineState) (p : PinState) (initValue inverted : PyVal) : MRes Unit :=
  let rm := reconfigureMonitoring fs p CbArg.none CbArg.none
  match rm.res with
  | Except.error e => ⟨rm.fs, rm.p, rm.tr, Except.error e⟩
  | Except.ok _ =>
    let step2 : MRes Unit :=
      if inverted.isBool then
        let iv := invertedSet rm.fs rm.p inverted
        ⟨iv.fs, iv.p, rm.tr ++ iv.tr, iv.res⟩
      else if inverted ≠ PyVal.none then
        ⟨rm.fs, rm.p, rm.tr, Except.error PyError.typeError⟩
      else ⟨rm.fs, rm.p, rm.tr, Except.ok ()⟩
    match step2.res with
    | Except.error e => ⟨step2.fs, step2.p, step2.tr, Except.error e⟩
    | Except.ok _ =>
      if initValue = PyVal.none then
        let ds := directionSet step2.fs step2.p "out"
        ⟨ds.fs, ds.p, step2.tr ++ ds.tr, ds.res⟩
      else if initValue.eqTrue then
        let ds := directionSet step2.fs step2.p "high"
        ⟨ds.fs, ds.p, step2.tr ++ ds.tr, ds.res⟩
      else if initValue.eqFalse then
        let ds := directionSet step2.fs step2.p "low"
        ⟨ds.fs, ds.p, step2.tr ++ ds.tr, ds.res⟩
      else ⟨step2.fs, step2.p, step2.tr, Except.error PyError.typeError⟩

/-- Embeds `Pin._interruptHandler` (lines 295-304): return silently when no
monitoring registration exists; otherwise read the current value and call
the rising callback with True when the value is true, or the falling
callback with False when it is false, each only when that callback is
callable. -/
def interruptHandler (fs : LineState) (p : PinState) : MRes Unit :=
  match p.monitoring with
  | Option.none => ⟨fs, p, [], Except.ok ()⟩
  | Option.some m =>
    let rd := valueGet fs p
    match rd.res with
    | Except.error e => ⟨rd.fs, rd.p, rd.tr, Except.error e⟩
    | Except.ok val =>
      if val ∧ m.cbRising = CbArg.callable then
        ⟨rd.fs, rd.p, rd.tr ++ [Action.cbRising true], Except.ok ()⟩
      else if ¬val ∧ m.cbFalling = CbArg.callable then
        ⟨rd.fs, rd.p, rd.tr ++ [Action.cbFalling false], Except.ok ()⟩
      else ⟨rd.fs, rd.p, rd.tr, Except.ok ()⟩

/-- Modelled from the spec: the cooperative-loop delivery of one readiness
event (spec section 4.3, DispatchBridge).  The event loop object that
`Pin.__reconfigureMonitoring` registers the handler with via
`eventLoop.add` is not part of src/ (the leftover `TwistedLoop` class
targets an older Pin interface), so delivery is modelled from the spec:
an event whose descriptor still resolves to a registered pin runs that
pin handler `_interruptHandler`; one whose descriptor no longer resolves
(the pin was unregistered or deallocated in between) is silently
dropped. -/
def dispatchEvent (fs : LineState) (p : PinState) (resolved : Bool) : MRes Unit :=
  if resolved then interruptHandler fs p
  else ⟨fs, p, [], Except.ok ()⟩

/-- Number of callback invocations recorded in a trace. -/
def invocations (tr : List Action) : Nat :=
  tr.countP fun a =>
    match a with
    | Action.cbRising _ => true
    | Action.cbFalling _ => true
    | _ => false

/-- The state the body of `TwistedLoop._poll_queue_loop` (lines 391-400)
carries between iterations: the `_running` flag and the Python local
variable `events`, which is unbound (`Option.none`) until the first
successful poll and otherwise keeps the batch the last successful poll
returned. -/
structure LoopState where
  running : Bool
  eventsVar : Option (List Nat)
  deriving DecidableEq, Repr

/-- What one call of the wait primitive `self._poll_queue.poll` produced:
a batch of events (identified by abstract ids) or an IOError with an
errno. -/
inductive PollResult
  | ok (evs : List Nat)
  | err (errno : Nat)
  deriving DecidableEq, Repr

/-- The errno of an interrupted system call. -/
def EINTR : Nat := 4

/-- Embeds one iteration of the body of `TwistedLoop._poll_queue_loop`
(lines 392-400), given what the poll call produced.  On an IOError the
local `events` keeps its previous value (unbound on the very first
iteration, which makes `len(events)` raise), a non-EINTR errno logs and
calls `reactor.stop()`, and in every case control then reaches the
`len(events) > 0` test, which forwards whatever `events` holds to
`reactor.callFromThread`.  Nothing in the body assigns `_running`. -/
def pollQueueLoopIter (s : LoopState) (r : PollResult) :
    Except PyError (LoopState × List Action) :=
  let s1 : LoopState :=
    match r with
    | PollResult.ok evs => { s with eventsVar := Option.some evs }
    | PollResult.err _ => s
  let tr1 : List Action :=
    match r with
    | PollResult.ok _ => []
    | PollResult.err e => if e ≠ EINTR then [Action.logError, Action.reactorStop] else []
  match s1.eventsVar with
  | Option.none => Except.error PyError.nameError
  | Option.some evs =>
    if evs.length > 0 then Except.ok (s1, tr1 ++ [Action.dispatchBatch evs])
    else Except.ok (s1, tr1)

/-- Replays a trace against a (valueFileOpen, registered) abstraction and
checks, initially and after every action, that a registered pin has its
value file open — the safety property that the background wait set never
holds a closed descriptor. -/
def monitoredImpliesOpen (opn reg : Bool) : List Action → Bool
  | [] => !reg || opn
  | a :: rest =>
    let opn2 : Bool :=
      match a with
      | Action.closeValueFile => false
      | Action.openValueFile => true
      | _ => opn
    let reg2 : Bool :=
      match a with
      | Action.monitorRemove _ => false
      | Action.monitorAdd _ => true
      | _ => reg
    (!reg || opn) && monitoredImpliesOpen opn2 reg2 rest

/-- Modelled from the spec: the Controller registry (spec section 4.4) is
not part of src/ — only the instantiation `pin = Controller()` on line 419
remains, the class itself does not exist — so the process-wide world the
Controller manages is modelled from the spec: the registry of allocated
pins, the kernel line of the number under consideration, and how many
descriptors for that line are open. -/
structure ControllerWorld where
  registry : List (Nat × PinState)
  line : LineState
  openCount : Nat
  deriving DecidableEq, Repr

/-- Looks a pin number up in the registry (first match). -/
def lookupKey (l : List (Nat × PinState)) (n : Nat) : Option PinState :=
  match l with
  | [] => Option.none
  | e :: rest => if e.1 = n then Option.some e.2 else lookupKey rest n

/-- Removes the first entry for a pin number from the registry. -/
def removeKey (l : List (Nat × PinState)) (n : Nat) : List (Nat × PinState) :=
  match l with
  | [] => []
  | e :: rest => if e.1 = n then rest else e :: removeKey rest n

/-- Modelled from the spec: `Controller.allocate` (spec section 4.4).
Fails with InvalidPinNumber outside the externally supplied valid range,
with PinAlreadyAllocated when the number is present, and with the
UnsupportedEdgeInterrupt class when a callback is supplied for a line
with no usable edge attribute.  Exports the line (a no-op when already
exported), constructs the Pin, registers it with the Monitor when it is
an input with a callback (which opens its value descriptor), and stores
it in the registry. -/
def allocate (validRange : List Nat) (w : ControllerWorld) (n : Nat)
    (isInput : Bool) (cb : CbArg) : Except PyError ControllerWorld :=
  if n ∉ validRange then Except.error PyError.invalidPinNumber
  else if (lookupKey w.registry n).isSome then Except.error PyError.pinAlreadyAllocated
  else if cb ≠ CbArg.none ∧ w.line.hasEdgeFile = false then
    Except.error PyError.unsupportedEdge
  else
    let line1 := { w.line with exported := true }
    if isInput ∧ cb ≠ CbArg.none then
      let p : PinState := ⟨n, true, true, Option.some ⟨0, cb, CbArg.none⟩⟩
      Except.ok ⟨(n, p) :: w.registry, line1, w.openCount + 1⟩
    else
      let p : PinState := ⟨n, true, false, Option.none⟩
      Except.ok ⟨(n, p) :: w.registry, line1, w.openCount⟩

/-- Modelled from the spec: `Controller.deallocate` (spec section 4.4).
Fails with PinNotAllocated when the number is absent; otherwise
unregisters from the Monitor when needed, unexports the line (closing the
value descriptor first), and removes the pin from the registry. -/
def deallocate (w : ControllerWorld) (n : Nat) : Except PyError ControllerWorld :=
  match lookupKey w.registry n with
  | Option.none => Except.error PyError.pinNotAllocated
  | Option.some p =>
    Except.ok ⟨removeKey w.registry n, { w.line with exported := false },
      w.openCount - (if p.valueFileOpen then 1 else 0)⟩

/-- Allocation followed by deallocation of the same number, the round trip
the spec states its restoration property about. -/
def allocThenDealloc (validRange : List Nat) (w : ControllerWorld) (n : Nat)
    (isInput : Bool) (cb : CbArg) : Except PyError ControllerWorld :=
  match allocate validRange w n isInput cb with
  | Except.error e => Except.error e
  | Except.ok w1 => deallocate w1 n

/-- Trace that `__reconfigureMonitoring` emits for its teardown phase. -/
def teardownTrace (p : PinState) : List Action :=
  match p.monitoring with
  | Option.some m => [Action.monitorRemove m.token]
  | Option.none => []

/-- Trace that `__assureValueFile` emits: an open when the file is not yet
open, nothing otherwise. -/
def openTrace (p : PinState) : List Action :=
  if p.valueFileOpen then [] else [Action.openValueFile]

/-- Whether a result is the UnsupportedEdgeInterrupt class of failure (the
raise on line 167, GPIO does not support callbacks). -/
def isUnsupportedEdgeRes (r : Except PyError Unit) : Bool :=
  match r with
  | Except.error PyError.unsupportedEdge => true
  | _ => false

/-- C2 (code_bug): one loop iteration of `_poll_queue_loop` evaluated at
the failing inputs.  First conjunct: an EINTR on the very first iteration
is not a silent retry — the local `events` is still unbound, so the
`len(events)` test raises a NameError.  Second conjunct: an EINTR after a
non-empty batch re-forwards that stale batch to the reactor instead of
having no other effect.  Third conjunct: a fatal (non-EINTR) failure logs
and calls `reactor.stop()` but leaves `_running` true, so the loop
performs further wait iterations until the stop propagates. -/
theorem c2_wait_loop_failing :
    pollQueueLoopIter ⟨true, Option.none⟩ (PollResult.err EINTR)
      = Except.error PyError.nameError ∧
    pollQueueLoopIter ⟨true, Option.some [7]⟩ (PollResult.err EINTR)
      = Except.ok (⟨true, Option.some [7]⟩, [Action.dispatchBatch [7]]) ∧
    pollQueueLoopIter ⟨true, Option.some []⟩ (PollResult.err 9)
      = Except.ok (⟨true, Option.some []⟩, [Action.logError, Action.reactorStop]) :=
  ⟨rfl, rfl, rfl⟩

/-- C5 (code_bug): a successful `configureAsInput` on an exported line
with an edge attribute and a rising callback returns right after writing
the edge file (the `return f.write(edge)` on line 162): the direction is
never set to in (it stays out) and no monitoring registration happens
(`monitoring` stays none, no monitorAdd in the trace). -/
theorem c5_configure_input_skips_direction :
    configureAsInput ⟨true, true, true, "out", "none", "0", "0"⟩
        ⟨7, true, false, Option.none⟩ CbArg.callable CbArg.none
      = ⟨⟨true, true, true, "out", "rising", "0", "0"⟩, ⟨7, true, false, Option.none⟩,
          [Action.writeEdgeFile "rising"], Except.ok ()⟩ :=
  rfl

/-- C9 counterexample: calling `export` on an already exported line is not
a no-op — the source unconditionally writes the pin number to the export
control file (and logs nothing). -/
theorem c9_export_not_noop_cex :
    (exportLine ⟨true, true, true, "out", "none", "0", "0"⟩
        ⟨7, true, false, Option.none⟩).tr = [Action.writeExportFile 7] ∧
    ¬ (exportLine ⟨true, true, true, "out", "none", "0", "0"⟩
        ⟨7, true, false, Option.none⟩).tr = [] :=
  ⟨rfl, by simp [exportLine]⟩

/-- C7 counterexample: on an exported line whose active_low attribute
holds 1 (inverted = true), writing value true and reading it back returns
true, not the negation false the claim states. -/
theorem c7_write_read_inverted_cex :
    (writeThenRead ⟨true, true, true, "out", "none", "0", "1"⟩
        ⟨7, true, false, Option.none⟩ true).res = Except.ok true ∧
    ¬ (writeThenRead ⟨true, true, true, "out", "none", "0", "1"⟩
        ⟨7, true, false, Option.none⟩ true).res = Except.ok false :=
  ⟨rfl, by simp [writeThenRead, valueSet, valueGet, assureValueFile, PyVal.eqTrue]⟩

/-- C1 counterexample: a readiness event delivered for a pin that is still
registered (here with only a falling callback) while the current value
reads true produces zero callback invocations, not exactly one — the
handler only fires the callback whose direction matches the value read. -/
theorem c1_single_callback_cex :
    (dispatchEvent ⟨true, true, true, "in", "falling", "1", "0"⟩
        ⟨7, true, true, Option.some ⟨0, CbArg.none, CbArg.callable⟩⟩ true).res
      = Except.ok () ∧
    invocations (dispatchEvent ⟨true, true, true, "in", "falling", "1", "0"⟩
        ⟨7, true, true, Option.some ⟨0, CbArg.none, CbArg.callable⟩⟩ true).tr = 0 ∧
    ¬ invocations (dispatchEvent ⟨true, true, true, "in", "falling", "1", "0"⟩
        ⟨7, true, true, Option.some ⟨0, CbArg.none, CbArg.callable⟩⟩ true).tr = 1 :=
  ⟨rfl, rfl, by decide⟩

/-- C10 counterexample: `configureAsOutput` with the integer 1 as
`initValue` (non-None and not a boolean) does not raise before the
direction write — because the source compares with Python `==` and
`1 == True`, it succeeds and writes high to the direction attribute. -/
theorem c10_int_initvalue_cex :
    (configureAsOutput ⟨true, true, true, "out", "none", "0", "0"⟩
        ⟨7, true, false, Option.none⟩ (PyVal.pyint 1) (PyVal.pybool false)).tr
      = [Action.writeActiveLowFile "0", Action.writeDirectionFile "high"] ∧
    (configureAsOutput ⟨true, true, true, "out", "none", "0", "0"⟩
        ⟨7, true, false, Option.none⟩ (PyVal.pyint 1) (PyVal.pybool false)).res
      = Except.ok () :=
  ⟨rfl, rfl⟩

/-- C9 amended: idempotence lives in the `exported` property setter, not
in `export` itself — setting `exported = True` on an already exported line
returns early, performing no write and leaving both the kernel state and
the pin unchanged (and unlogged), while `export()` always writes the pin
number to the export control file. -/
theorem c9_exported_setter_idempotent (fs : LineState) (p : PinState)
    (h : fs.exported = true) :
    exportedSet fs p (PyVal.pybool true) = ⟨fs, p, [], Except.ok ()⟩ ∧
    (exportLine fs p).tr = [Action.writeExportFile p.nr] := by
  constructor
  · unfold exportedSet
    simp [pyEqBool, h]
  · rfl

/-- C9 witness: the idempotence instance at a concrete exported line. -/
theorem c9_idempotent_witness :
    exportedSet ⟨true, true, true, "out", "none", "0", "0"⟩ ⟨7, true, false, Option.none⟩
        (PyVal.pybool true)
      = ⟨⟨true, true, true, "out", "none", "0", "0"⟩, ⟨7, true, false, Option.none⟩,
          [], Except.ok ()⟩ ∧
    (exportLine ⟨true, true, true, "out", "none", "0", "0"⟩
        ⟨7, true, false, Option.none⟩).tr = [Action.writeExportFile 7] :=
  c9_exported_setter_idempotent ⟨true, true, true, "out", "none", "0", "0"⟩
    ⟨7, true, false, Option.none⟩ rfl

/-- C7 amended: for every boolean b, writing value = b on an exported line
and then reading value returns b, whatever the active_low (inverted)
attribute holds — the value attribute round-trips the written level in
both inversion modes, because the source applies no inversion of its own
and the kernel applies active_low symmetrically to reads and writes. -/
theorem c7_write_then_read_roundtrip (fs : LineState) (p : PinState) (b : Bool)
    (hexp : fs.exported = true) :
    (writeThenRead fs p b).res = Except.ok b := by
  unfold writeThenRead valueSet valueGet assureValueFile
  cases hvo : p.valueFileOpen <;> cases b <;>
    simp [hexp, hvo, PyVal.eqTrue, PyVal.eqFalse]

/-- C7 witness: the round trip instance at a concrete line with inversion
on and one with inversion off. -/
theorem c7_roundtrip_witness :
    (writeThenRead ⟨true, true, true, "out", "none", "0", "1"⟩
        ⟨7, true, false, Option.none⟩ false).res = Except.ok false ∧
    (writeThenRead ⟨true, true, true, "out", "none", "0", "0"⟩
        ⟨7, true, false, Option.none⟩ true).res = Except.ok true :=
  ⟨c7_write_then_read_roundtrip ⟨true, true, true, "out", "none", "0", "1"⟩
      ⟨7, true, false, Option.none⟩ false rfl,
    c7_write_then_read_roundtrip ⟨true, true, true, "out", "none", "0", "0"⟩
      ⟨7, true, false, Option.none⟩ true rfl⟩

/-- C4: on an exported, edge-capable line (and an unmonitored pin, so the
trace is the edge write alone), the edge mode `configureAsInput` writes is
determined solely by which callbacks are present: neither gives none,
only rising gives rising, only falling gives falling, both give both. -/
theorem c4_edge_mode_from_callbacks (fs : LineState) (p : PinState) (cbR cbF : CbArg)
    (hexp : fs.exported = true) (hedge : fs.hasEdgeFile = true)
    (hmon : p.monitoring = Option.none) :
    (cbR = CbArg.none ∧ cbF = CbArg.none →
      (configureAsInput fs p cbR cbF).tr = [Action.writeEdgeFile "none"]) ∧
    (cbR = CbArg.callable ∧ cbF = CbArg.none →
      (configureAsInput fs p cbR cbF).tr = [Action.writeEdgeFile "rising"]) ∧
    (cbR = CbArg.none ∧ cbF = CbArg.callable →
      (configureAsInput fs p cbR cbF).tr = [Action.writeEdgeFile "falling"]) ∧
    (cbR = CbArg.callable ∧ cbF = CbArg.callable →
      (configureAsInput fs p cbR cbF).tr = [Action.writeEdgeFile "both"]) := by
  refine ⟨fun h => ?_, fun h => ?_, fun h => ?_, fun h => ?_⟩ <;>
    rcases h with ⟨h1, h2⟩ <;> subst h1 <;> subst h2 <;>
      simp [configureAsInput, edgeOf, reconfigureMonitoring, hexp, hedge, hmon]

/-- C4 witness: the edge computation at concrete callback patterns. -/
theorem c4_edge_mode_witness :
    (configureAsInput ⟨true, true, true, "out", "none", "0", "0"⟩
        ⟨7, true, false, Option.none⟩ CbArg.callable CbArg.callable).tr
      = [Action.writeEdgeFile "both"] :=
  (c4_edge_mode_from_callbacks ⟨true, true, true, "out", "none", "0", "0"⟩
      ⟨7, true, false, Option.none⟩ CbArg.callable CbArg.callable rfl rfl rfl).2.2.2
    ⟨rfl, rfl⟩

/-- C3: when `unexport` is called on a pin whose value file is open and
which is registered with the monitor, the emitted steps are, in order:
unregistration from the monitor, then the close of the value file, then
the write to the unexport control file; replaying the trace shows that at
no point is a closed descriptor still registered in the wait set. -/
theorem c3_unexport_order (fs : LineState) (p : PinState) (m : Monitoring)
    (hopen : p.valueFileOpen = true) (hmon : p.monitoring = Option.some m) :
    unexport fs p
      = ⟨{ fs with exported := false },
          { p with valueFileOpen := false, monitoring := Option.none },
          [Action.monitorRemove m.token, Action.closeValueFile,
            Action.writeUnexportFile p.nr],
          Except.ok ()⟩ ∧
    monitoredImpliesOpen p.valueFileOpen (p.monitoring.isSome) (unexport fs p).tr = true := by
  have hu : unexport fs p
      = ⟨{ fs with exported := false },
          { p with valueFileOpen := false, monitoring := Option.none },
          [Action.monitorRemove m.token, Action.closeValueFile,
            Action.writeUnexportFile p.nr],
          Except.ok ()⟩ := by
    unfold unexport closeValueFile reconfigureMonitoring
    simp [hopen, hmon]
  refine ⟨hu, ?_⟩
  rw [hu, hopen, hmon]
  simp [monitoredImpliesOpen]

/-- C3 witness: the ordering instance at a concrete monitored pin. -/
theorem c3_unexport_order_witness :
    unexport ⟨true, true, true, "in", "rising", "0", "0"⟩
        ⟨7, true, true, Option.some ⟨0, CbArg.callable, CbArg.none⟩⟩
      = ⟨⟨false, true, true, "in", "rising", "0", "0"⟩,
          ⟨7, true, false, Option.none⟩,
          [Action.monitorRemove 0, Action.closeValueFile, Action.writeUnexportFile 7],
          Except.ok ()⟩ :=
  (c3_unexport_order ⟨true, true, true, "in", "rising", "0", "0"⟩
      ⟨7, true, true, Option.some ⟨0, CbArg.callable, CbArg.none⟩⟩
      ⟨0, CbArg.callable, CbArg.none⟩ rfl rfl).1

/-- C1 amended: delivery of a readiness event.  An event whose descriptor
no longer resolves (pin deallocated), or whose pin has no monitoring
registration left, produces zero invocations and no error.  For a
registered pin the handler reads the current (post-inversion) value and
invokes at most one callback: the rising callback with True when the
value is true and a rising callback is registered, the falling callback
with False when the value is false and a falling callback is registered,
and none otherwise. -/
theorem c1_dispatch_at_most_one (fs : LineState) (p : PinState) (m : Monitoring)
    (hexp : fs.exported = true) :
    ((dispatchEvent fs p false).res = Except.ok () ∧ (dispatchEvent fs p false).tr = []) ∧
    (p.monitoring = Option.none →
      (dispatchEvent fs p true).res = Except.ok () ∧ (dispatchEvent fs p true).tr = []) ∧
    (p.monitoring = Option.some m →
      (dispatchEvent fs p true).res = Except.ok () ∧
      invocations (dispatchEvent fs p true).tr ≤ 1 ∧
      (fs.valueLevel ≠ "0" → m.cbRising = CbArg.callable →
        (dispatchEvent fs p true).tr
          = openTrace p ++ [Action.readValueFile, Action.cbRising true]) ∧
      (fs.valueLevel = "0" → m.cbFalling = CbArg.callable →
        (dispatchEvent fs p true).tr
          = openTrace p ++ [Action.readValueFile, Action.cbFalling false]) ∧
      (fs.valueLevel ≠ "0" → ¬ m.cbRising = CbArg.callable →
        invocations (dispatchEvent fs p true).tr = 0) ∧
      (fs.valueLevel = "0" → ¬ m.cbFalling = CbArg.callable →
        invocations (dispatchEvent fs p true).tr = 0)) := by
  refine ⟨⟨rfl, rfl⟩, fun hm => ?_, fun hm => ?_⟩
  · constructor <;> simp [dispatchEvent, interruptHandler, hm]
  · have hval : (valueGet fs p).res
        = Except.ok (decide (fs.valueLevel ≠ "0")) := by
      unfold valueGet assureValueFile
      cases hvo : p.valueFileOpen <;> simp [hexp, hvo]
    have htr : (valueGet fs p).tr = openTrace p ++ [Action.readValueFile] := by
      unfold valueGet assureValueFile openTrace
      cases hvo : p.valueFileOpen <;> simp [hexp, hvo]
    by_cases h0 : fs.valueLevel = "0" <;>
      cases hcr : m.cbRising <;> cases hcf : m.cbFalling <;>
        cases hvo : p.valueFileOpen <;>
          simp [dispatchEvent, interruptHandler, hm, hval, htr, h0, hcr, hcf, hvo,
            invocations, openTrace, List.countP_append]

/-- C1 witness: a registered rising callback with the value reading true
is invoked exactly once, with True. -/
theorem c1_dispatch_witness :
    (dispatchEvent ⟨true, true, true, "in", "rising", "1", "0"⟩
        ⟨7, true, true, Option.some ⟨0, CbArg.callable, CbArg.none⟩⟩ true).tr
      = [Action.readValueFile, Action.cbRising true] := by
  have h := c1_dispatch_at_most_one ⟨true, true, true, "in", "rising", "1", "0"⟩
    ⟨7, true, true, Option.some ⟨0, CbArg.callable, CbArg.none⟩⟩
    ⟨0, CbArg.callable, CbArg.none⟩ rfl
  simpa [openTrace] using (h.2.2 rfl).2.2.1 (by decide) rfl

/-- C6: on an exported line with valid (absent-or-callable) callback
arguments, `configureAsInput` fails with the UnsupportedEdgeInterrupt
class of error exactly when the line has no edge attribute and the
requested edge mode is not none; with no edge attribute and edge mode
none the call does not fail for that reason. -/
theorem c6_unsupported_edge_iff (fs : LineState) (p : PinState) (cbR cbF : CbArg)
    (hexp : fs.exported = true)
    (hR : ¬ cbR = CbArg.nonCallable) (hF : ¬ cbF = CbArg.nonCallable) :
    isUnsupportedEdgeRes (configureAsInput fs p cbR cbF).res = true ↔
      fs.hasEdgeFile = false ∧ ¬ (cbR = CbArg.none ∧ cbF = CbArg.none) := by
  cases cbR <;> cases cbF <;> first
    | exact absurd rfl hR
    | exact absurd rfl hF
    | (cases hedge : fs.hasEdgeFile <;>
        cases hdir : fs.hasDirectionFile <;>
          simp [configureAsInput, edgeOf, reconfigureMonitoring, directionSet,
            exportedOrFail, isUnsupportedEdgeRes, hexp, hedge, hdir])

/-- C6 witness: the iff instance at a concrete exported line without an
edge attribute and a rising callback (the failing direction), and at the
same line with no callbacks (the non-failing direction). -/
theorem c6_unsupported_edge_witness :
    (isUnsupportedEdgeRes (configureAsInput ⟨true, false, true, "out", "none", "0", "0"⟩
        ⟨7, true, false, Option.none⟩ CbArg.callable CbArg.none).res = true ↔
      (false = false ∧ ¬ (CbArg.callable = CbArg.none ∧ CbArg.none = CbArg.none))) ∧
    (isUnsupportedEdgeRes (configureAsInput ⟨true, false, true, "out", "none", "0", "0"⟩
        ⟨7, true, false, Option.none⟩ CbArg.none CbArg.none).res = true ↔
      (false = false ∧ ¬ (CbArg.none = CbArg.none ∧ CbArg.none = CbArg.none))) :=
  ⟨c6_unsupported_edge_iff ⟨true, false, true, "out", "none", "0", "0"⟩
      ⟨7, true, false, Option.none⟩ CbArg.callable CbArg.none rfl
      (by decide) (by decide),
    c6_unsupported_edge_iff ⟨true, false, true, "out", "none", "0", "0"⟩
      ⟨7, true, false, Option.none⟩ CbArg.none CbArg.none rfl
      (by decide) (by decide)⟩

/-- C8 (spec-modelled): allocating a free, valid pin number and then
deallocating it returns the controller world to its prior state — the
registry is exactly what it was, the kernel line is no longer exported,
and no descriptor is leaked (the open-descriptor count is restored). -/
theorem c8_allocate_deallocate_restores (vr : List Nat) (w : ControllerWorld) (n : Nat)
    (isInput : Bool) (cb : CbArg)
    (hfree : lookupKey w.registry n = Option.none)
    (hvr : n ∈ vr)
    (hcb : cb = CbArg.none ∨ w.line.hasEdgeFile = true) :
    allocThenDealloc vr w n isInput cb
      = Except.ok ⟨w.registry, { w.line with exported := false }, w.openCount⟩ := by
  unfold allocThenDealloc allocate deallocate
  by_cases hreg : isInput ∧ cb ≠ CbArg.none
  · have hedge : w.line.hasEdgeFile = true := by
      rcases hcb with h | h
      · exact absurd h hreg.2
      · exact h
    simp [hvr, hfree, hedge, hreg, lookupKey, removeKey]
  · have hedge : ¬ (cb ≠ CbArg.none ∧ w.line.hasEdgeFile = false) := by
      rcases hcb with h | h <;> simp [h]
    simp [hvr, hfree, hedge, hreg, lookupKey, removeKey]

/-- C8 witness: the round trip at a concrete free pin number. -/
theorem c8_restore_witness :
    allocThenDealloc [5] ⟨[], ⟨false, true, true, "out", "none", "0", "0"⟩, 0⟩ 5
        true CbArg.callable
      = Except.ok ⟨[], ⟨false, true, true, "out", "none", "0", "0"⟩, 0⟩ :=
  c8_allocate_deallocate_restores [5] ⟨[], ⟨false, true, true, "out", "none", "0", "0"⟩, 0⟩
    5 true CbArg.callable rfl (by decide) (Or.inr rfl)

/-- Value equal to True is in particular not None. -/
lemma PyVal.eqTrue_ne_none {iv : PyVal} (h : iv.eqTrue = true) : ¬ iv = PyVal.none := by
  cases iv <;> simp_all [PyVal.eqTrue]

/-- Value equal to False is in particular not None. -/
lemma PyVal.eqFalse_ne_none {iv : PyVal} (h : iv.eqFalse = true) : ¬ iv = PyVal.none := by
  cases iv <;> simp_all [PyVal.eqFalse]

/-- Value equal to False is not also equal to True. -/
lemma PyVal.eqFalse_not_eqTrue {iv : PyVal} (h : iv.eqFalse = true) : iv.eqTrue = false := by
  cases iv <;> simp_all [PyVal.eqTrue, PyVal.eqFalse]

/-- Reduction of the True comparison at a bool value. -/
lemma PyVal.eqTrue_pybool (b : Bool) : (PyVal.pybool b).eqTrue = b := rfl

/-- Reduction of the False comparison at a bool value. -/
lemma PyVal.eqFalse_pybool (b : Bool) : (PyVal.pybool b).eqFalse = !b := rfl

/-- Trace of `configureAsOutput` on an exported, direction-writable line
with a boolean inversion: teardown, then the inversion write, then the
direction write selected by the `initValue` comparisons (absent in the
TypeError case). -/
lemma configureAsOutput_tr (fs : LineState) (p : PinState) (i : Bool) (iv : PyVal)
    (hexp : fs.exported = true) (hdir : fs.hasDirectionFile = true) :
    (configureAsOutput fs p iv (PyVal.pybool i)).tr
      = teardownTrace p ++ [Action.writeActiveLowFile (cond i "1" "0")]
        ++ (if iv = PyVal.none then [Action.writeDirectionFile "out"]
          else if iv.eqTrue then [Action.writeDirectionFile "high"]
          else if iv.eqFalse then [Action.writeDirectionFile "low"]
          else []) := by
  cases hm : p.monitoring <;> cases i <;>
    by_cases h1 : iv = PyVal.none <;>
      by_cases h2 : iv.eqTrue = true <;>
        by_cases h3 : iv.eqFalse = true <;>
          simp [configureAsOutput, reconfigureMonitoring, invertedSet, directionSet,
            PyVal.isBool, PyVal.eqTrue_pybool, PyVal.eqFalse_pybool, teardownTrace,
            hexp, hdir, hm, h1, h2, h3]

/-- Result of `configureAsOutput` on an exported, direction-writable line
with a boolean inversion: ok unless `initValue` is non-None and equal to
neither True nor False, which raises TypeError. -/
lemma configureAsOutput_res (fs : LineState) (p : PinState) (i : Bool) (iv : PyVal)
    (hexp : fs.exported = true) (hdir : fs.hasDirectionFile = true) :
    (configureAsOutput fs p iv (PyVal.pybool i)).res
      = (if iv = PyVal.none ∨ iv.eqTrue = true ∨ iv.eqFalse = true then Except.ok ()
        else Except.error PyError.typeError) := by
  cases hm : p.monitoring <;> cases i <;>
    by_cases h1 : iv = PyVal.none <;>
      by_cases h2 : iv.eqTrue = true <;>
        by_cases h3 : iv.eqFalse = true <;>
          simp [configureAsOutput, reconfigureMonitoring, invertedSet, directionSet,
            PyVal.isBool, PyVal.eqTrue_pybool, PyVal.eqFalse_pybool, teardownTrace,
            hexp, hdir, hm, h1, h2, h3]

/-- C10 amended: on an exported line with a writable direction attribute
and a boolean `inverted`, `configureAsOutput` first tears down any
monitoring registration, then writes the inversion, then writes the
direction: out when `initValue` is None, high when it compares equal to
True, low when it compares equal to False; a non-None `initValue` equal
to neither (under Python equality, where 1 == True and 0 == False)
raises TypeError after the inversion write but before any direction
write. -/
theorem c10_output_order (fs : LineState) (p : PinState) (i : Bool) (iv : PyVal)
    (hexp : fs.exported = true) (hdir : fs.hasDirectionFile = true) :
    (iv = PyVal.none →
      (configureAsOutput fs p iv (PyVal.pybool i)).tr
        = teardownTrace p
          ++ [Action.writeActiveLowFile (cond i "1" "0"), Action.writeDirectionFile "out"] ∧
      (configureAsOutput fs p iv (PyVal.pybool i)).res = Except.ok ()) ∧
    (iv.eqTrue = true →
      (configureAsOutput fs p iv (PyVal.pybool i)).tr
        = teardownTrace p
          ++ [Action.writeActiveLowFile (cond i "1" "0"), Action.writeDirectionFile "high"] ∧
      (configureAsOutput fs p iv (PyVal.pybool i)).res = Except.ok ()) ∧
    (iv.eqFalse = true →
      (configureAsOutput fs p iv (PyVal.pybool i)).tr
        = teardownTrace p
          ++ [Action.writeActiveLowFile (cond i "1" "0"), Action.writeDirectionFile "low"] ∧
      (configureAsOutput fs p iv (PyVal.pybool i)).res = Except.ok ()) ∧
    (¬ iv = PyVal.none → iv.eqTrue = false → iv.eqFalse = false →
      (configureAsOutput fs p iv (PyVal.pybool i)).tr
        = teardownTrace p ++ [Action.writeActiveLowFile (cond i "1" "0")] ∧
      (configureAsOutput fs p iv (PyVal.pybool i)).res = Except.error PyError.typeError) := by
  refine ⟨fun h => ?_, fun h => ?_, fun h => ?_, fun h1 h2 h3 => ?_⟩ <;>
    rw [configureAsOutput_tr fs p i iv hexp hdir, configureAsOutput_res fs p i iv hexp hdir]
  · simp [h, List.append_assoc]
  · simp [h, PyVal.eqTrue_ne_none h, List.append_assoc]
  · simp [h, PyVal.eqFalse_ne_none h, PyVal.eqFalse_not_eqTrue h, List.append_assoc]
  · simp [h1, h2, h3]

/-- C10 witness: the ordering instance at a concrete monitored pin with
`initValue` None and `inverted` True. -/
theorem c10_output_order_witness :
    (configureAsOutput ⟨true, true, true, "in", "rising", "0", "0"⟩
        ⟨7, true, true, Option.some ⟨0, CbArg.callable, CbArg.none⟩⟩
        PyVal.none (PyVal.pybool true)).tr
      = teardownTrace ⟨7, true, true, Option.some ⟨0, CbArg.callable, CbArg.none⟩⟩
        ++ [Action.writeActiveLowFile (cond true "1" "0"), Action.writeDirectionFile "out"] ∧
    (configureAsOutput ⟨true, true, true, "in", "rising", "0", "0"⟩
        ⟨7, true, true, Option.some ⟨0, CbArg.callable, CbArg.none⟩⟩
        PyVal.none (PyVal.pybool true)).res = Except.ok () :=
  (c10_output_order ⟨true, true, true, "in", "rising", "0", "0"⟩
      ⟨7, true, true, Option.some ⟨0, CbArg.callable, CbArg.none⟩⟩
      true PyVal.none rfl rfl).1 rfl

end SysfsGpio
